import Mathlib

/-!
Shallow embedding of the MIDI-shortcuts core (message decoder and device
reconciler) for checking the natural-language specification against the code.

JavaScript numbers that can reach the decoder are modelled as rationals
(`ℚ`): this keeps "non-integer" inputs representable, which the validators
(`Number.isInteger`) branch on.  Bitwise `&` is modelled by `jsAnd`, which
performs the ToInt32 conversion (truncate toward zero, wrap to 32 bits,
reinterpret signed) exactly as the JavaScript specification does for finite
operands.  `Date.now()` is passed in as an explicit `timestamp` argument.
-/

/-- Truncation of a rational toward zero (the first step of ToInt32). -/
def ratTrunc (q : ℚ) : ℤ :=
  if 0 ≤ q.num then ((q.num.toNat / q.den : ℕ) : ℤ)
  else -(((-q.num).toNat / q.den : ℕ) : ℤ)

/-- The unsigned 32-bit representative ToInt32 assigns to a finite number. -/
def toUint32 (q : ℚ) : ℕ := (Int.emod (ratTrunc q) (2 ^ 32)).toNat

/-- JavaScript bitwise AND on numbers: ToInt32 both operands, AND the bits,
reinterpret the 32-bit result as signed. -/
def jsAnd (a b : ℚ) : ℤ :=
  let r := Nat.land (toUint32 a) (toUint32 b)
  if r < 2 ^ 31 then (r : ℤ) else (r : ℤ) - 2 ^ 32

/-- JavaScript `Number.isInteger` on a finite number modelled as a rational. -/
def isInteger (q : ℚ) : Bool := q.den == 1

/-! MIDI_CONSTANTS from `src/midi/midiTypes.ts`. -/

def NOTE_OFF_STATUS : ℤ := 0x80

def NOTE_ON_STATUS : ℤ := 0x90

def CONTROL_CHANGE_STATUS : ℤ := 0xB0

def PROGRAM_CHANGE_STATUS : ℤ := 0xC0

def MIN_CHANNEL : ℚ := 1

def MAX_CHANNEL : ℚ := 16

def MIN_NOTE : ℚ := 0

def MAX_NOTE : ℚ := 127

def MIN_VELOCITY : ℚ := 0

def MAX_VELOCITY : ℚ := 127

def MIN_CONTROLLER : ℚ := 0

def MAX_CONTROLLER : ℚ := 127

def NOTE_ON_ZERO_VELOCITY_IS_NOTE_OFF : Bool := true

/-- `isValidMidiChannel` from `midiTypes.ts`. -/
def isValidMidiChannel (channel : ℚ) : Bool :=
  isInteger channel && decide (MIN_CHANNEL ≤ channel) && decide (channel ≤ MAX_CHANNEL)

/-- `isValidMidiNote` from `midiTypes.ts`. -/
def isValidMidiNote (note : ℚ) : Bool :=
  isInteger note && decide (MIN_NOTE ≤ note) && decide (note ≤ MAX_NOTE)

/-- `isValidMidiVelocity` from `midiTypes.ts`. -/
def isValidMidiVelocity (velocity : ℚ) : Bool :=
  isInteger velocity && decide (MIN_VELOCITY ≤ velocity) && decide (velocity ≤ MAX_VELOCITY)

/-- `isValidMidiController` from `midiTypes.ts`. -/
def isValidMidiController (controller : ℚ) : Bool :=
  isInteger controller && decide (MIN_CONTROLLER ≤ controller) && decide (controller ≤ MAX_CONTROLLER)

/-- The `MidiMessageType` enum. -/
inductive MidiMessageType
  | NOTE_ON
  | NOTE_OFF
  | CONTROL_CHANGE
  | PROGRAM_CHANGE
deriving DecidableEq

/-- The `MidiMessage` interface: optional fields stay `Option`, mirroring
field absence in the TypeScript object literals. -/
structure MidiMessage where
  type : MidiMessageType
  channel : ℚ
  note : Option ℚ
  velocity : Option ℚ
  controller : Option ℚ
  value : Option ℚ
  timestamp : ℤ
deriving DecidableEq

/-- `channel = (statusByte & 0x0F) + 1` from `MidiManager.parseMidiMessage`. -/
def midiChannel (statusByte : ℚ) : ℤ := jsAnd statusByte 0x0F + 1

/-- `MidiManager.parseMidiMessage`.  The two leading patterns fuse the
`message.length < 2` guard with the `[statusByte, ...dataBytes]`
destructuring; the inner matches fuse each branch's `dataBytes.length`
guard with its destructuring of `dataBytes`. -/
def parseMidiMessage (message : List ℚ) (timestamp : ℤ) : Option MidiMessage :=
  match message with
  | [] => none
  | [_] => none
  | statusByte :: dataBytes =>
    let messageType := jsAnd statusByte 0xF0
    let channel : ℚ := ((midiChannel statusByte : ℤ) : ℚ)
    if !(isValidMidiChannel channel) then none
    else if messageType = NOTE_ON_STATUS then
      match dataBytes with
      | note :: velocity :: _ =>
        if !(isValidMidiNote note) || !(isValidMidiVelocity velocity) then none
        else
          let type :=
            if velocity == 0 && NOTE_ON_ZERO_VELOCITY_IS_NOTE_OFF then
              MidiMessageType.NOTE_OFF
            else
              MidiMessageType.NOTE_ON
          some { type := type, channel := channel, note := some note,
                 velocity := some velocity, controller := none, value := none,
                 timestamp := timestamp }
      | _ => none
    else if messageType = NOTE_OFF_STATUS then
      match dataBytes with
      | note :: velocity :: _ =>
        if !(isValidMidiNote note) || !(isValidMidiVelocity velocity) then none
        else
          some { type := MidiMessageType.NOTE_OFF, channel := channel,
                 note := some note, velocity := some velocity,
                 controller := none, value := none, timestamp := timestamp }
      | _ => none
    else if messageType = CONTROL_CHANGE_STATUS then
      match dataBytes with
      | controller :: value :: _ =>
        if !(isValidMidiController controller) || !(isValidMidiVelocity value) then none
        else
          some { type := MidiMessageType.CONTROL_CHANGE, channel := channel,
                 note := none, velocity := none, controller := some controller,
                 value := some value, timestamp := timestamp }
      | _ => none
    else if messageType = PROGRAM_CHANGE_STATUS then
      match dataBytes with
      | value :: _ =>
        if !(isValidMidiVelocity value) then none
        else
          some { type := MidiMessageType.PROGRAM_CHANGE, channel := channel,
                 note := none, velocity := none, controller := none,
                 value := some value, timestamp := timestamp }
      | _ => none
    else none

/-! Device model (`MidiDevice` from `midiTypes.ts`) and the error taxonomy
(`MidiErrorType` / `MidiError` from `midiManager.ts`).  A wrapped original
`Error` is represented by its message string. -/

structure MidiDevice where
  id : String
  name : String
  manufacturer : Option String
  connected : Bool
deriving DecidableEq

inductive MidiErrorType
  | DEVICE_NOT_FOUND
  | CONNECTION_FAILED
  | PERMISSION_DENIED
  | DEVICE_BUSY
  | INVALID_MESSAGE
  | UNKNOWN_ERROR
deriving DecidableEq

structure MidiError where
  type : MidiErrorType
  message : String
  originalError : Option String
deriving DecidableEq

/-- A value thrown by JavaScript code: either a `MidiError` or some other
error (carrying its message), as distinguished by `instanceof MidiError`. -/
inductive JsError
  | midi (e : MidiError)
  | other (message : String)
deriving DecidableEq

/-! `DeviceDetector` from `deviceDetector.ts`.  The detector is embedded by
explicit state passing; the outcome of the asynchronous
`midiManager.detectDevices()` call is an `Except` argument. -/

inductive DetectorEvent
  | devicesChanged (devices : List MidiDevice)
  | deviceAdded (device : MidiDevice)
  | deviceRemoved (device : MidiDevice)
  | error (e : MidiError)
deriving DecidableEq

structure DeviceListChanges where
  added : List MidiDevice
  removed : List MidiDevice
deriving DecidableEq

/-- `DeviceDetector.compareDeviceLists`: JavaScript `Set.has` membership on
the collected id lists is list membership. -/
def compareDeviceLists (oldDevices newDevices : List MidiDevice) : DeviceListChanges :=
  let oldIds := oldDevices.map fun device => device.id
  let newIds := newDevices.map fun device => device.id
  let added := newDevices.filter fun device => !(oldIds.contains device.id)
  let removed := oldDevices.filter fun device => !(newIds.contains device.id)
  { added := added, removed := removed }

/-- Result of one `detectAndCompareDevices` pass: the detector events emitted
(in emission order), the `lastKnownDevices` field afterwards, and the list the
call returns to its caller. -/
structure PollResult where
  events : List DetectorEvent
  lastKnownAfter : List MidiDevice
  returned : List MidiDevice
deriving DecidableEq

/-- `DeviceDetector.detectAndCompareDevices`, with the outcome of the awaited
`midiManager.detectDevices()` call passed in.  The function is total: the
`catch` branch turns an enumeration failure into an `error` event and a normal
return instead of a propagated exception. -/
def detectAndCompareDevices (lastKnownDevices : List MidiDevice)
    (detectResult : Except JsError (List MidiDevice)) : PollResult :=
  match detectResult with
  | .ok currentDevices =>
    let changes := compareDeviceLists lastKnownDevices currentDevices
    let events :=
      if changes.added.length > 0 || changes.removed.length > 0 then
        DetectorEvent.devicesChanged currentDevices ::
          (changes.added.map DetectorEvent.deviceAdded ++
           changes.removed.map DetectorEvent.deviceRemoved)
      else []
    { events := events, lastKnownAfter := currentDevices, returned := currentDevices }
  | .error e =>
    let midiError :=
      match e with
      | .midi err => err
      | .other msg =>
        { type := MidiErrorType.UNKNOWN_ERROR,
          message := "Failed to detect device changes", originalError := some msg }
    { events := [DetectorEvent.error midiError], lastKnownAfter := lastKnownDevices,
      returned := lastKnownDevices }

/-- `DeviceDetector.refreshDevices` delegates to `detectAndCompareDevices`. -/
def refreshDevices (lastKnownDevices : List MidiDevice)
    (detectResult : Except JsError (List MidiDevice)) : PollResult :=
  detectAndCompareDevices lastKnownDevices detectResult

/-- The detector's mutable fields (`lastKnownDevices`, `isMonitoring`,
`monitoringInterval`); the timer handle is an identifier, `none` when null. -/
structure DetectorState where
  lastKnownDevices : List MidiDevice
  isMonitoring : Bool
  monitoringInterval : Option ℕ
deriving DecidableEq

/-- `DeviceDetector.getLastKnownDevices` returns `[...lastKnownDevices]`; on
immutable values the spread copy is the list itself (the aliasing behaviour of
the copy is modelled separately on the reference store). -/
def getLastKnownDevices (st : DetectorState) : List MidiDevice :=
  st.lastKnownDevices

/-- Effects of one `startMonitoring` call: resulting state, events emitted by
the immediate detection pass, how many detection passes ran, and how many
`setInterval` timers were created. -/
structure StartResult where
  state : DetectorState
  events : List DetectorEvent
  detectionPasses : ℕ
  timersCreated : ℕ
deriving DecidableEq

/-- `DeviceDetector.startMonitoring`: a no-op when already monitoring;
otherwise sets the flag, runs one immediate detection pass and installs one
interval timer (with fresh handle `timerId`). -/
def startMonitoring (st : DetectorState) (timerId : ℕ)
    (detectResult : Except JsError (List MidiDevice)) : StartResult :=
  if st.isMonitoring then
    { state := st, events := [], detectionPasses := 0, timersCreated := 0 }
  else
    let poll := detectAndCompareDevices st.lastKnownDevices detectResult
    { state := { lastKnownDevices := poll.lastKnownAfter, isMonitoring := true,
                 monitoringInterval := some timerId },
      events := poll.events, detectionPasses := 1, timersCreated := 1 }

/-- Effects of one `stopMonitoring` call. -/
structure StopResult where
  state : DetectorState
  timersCancelled : ℕ
deriving DecidableEq

/-- `DeviceDetector.stopMonitoring`: a no-op when not monitoring; otherwise
clears the flag and cancels the timer if one is installed. -/
def stopMonitoring (st : DetectorState) : StopResult :=
  if !st.isMonitoring then
    { state := st, timersCancelled := 0 }
  else
    match st.monitoringInterval with
    | some _ =>
      { state := { st with isMonitoring := false, monitoringInterval := none },
        timersCancelled := 1 }
    | none =>
      { state := { st with isMonitoring := false }, timersCancelled := 0 }

/-! `MidiManager` from `midiManager.ts`: device enumeration, connection and
disconnection, embedded by explicit state passing.  Outcomes of the external
transport calls (`getPortCount`/`getPortName`, `openPort`, `closePort`) are
arguments. -/

inductive ManagerEvent
  | message (m : MidiMessage)
  | deviceConnected (device : MidiDevice)
  | deviceDisconnected (device : MidiDevice)
  | error (e : MidiError)
deriving DecidableEq

/-- The manager's mutable fields: whether `input` holds a `midi.Input` object
(`input !== null`), the connected device, and the listening flag. -/
structure ManagerState where
  input : Bool
  connectedDevice : Option MidiDevice
  isListening : Bool
deriving DecidableEq

/-- Collapse every run of whitespace to a single `'-'`
(the `replace(/\s+/g, '-')` step of the device-id construction);
`prevWs` records whether the previous character was whitespace. -/
def collapseWsAux (prevWs : Bool) : List Char → List Char
  | [] => []
  | c :: rest =>
    if c.isWhitespace then
      (if prevWs then [] else ['-']) ++ collapseWsAux true rest
    else
      c :: collapseWsAux false rest

/-- Device id from port index and port name:
`` `${i}-${portName.replace(/\s+/g, '-').toLowerCase()}` ``. -/
def makeDeviceId (i : ℕ) (portName : String) : String :=
  toString i ++ "-" ++ (String.mk (collapseWsAux false portName.data)).toLower

/-- `MidiManager.detectDevices`, with the enumeration outcome (the port-name
list produced by `getPortCount`/`getPortName`, or the failure message) passed
in.  On failure it emits an `error` event on the manager and re-throws the
wrapping `MidiError`. -/
def detectDevices (enumOutcome : Except String (List String)) :
    List ManagerEvent × Except MidiError (List MidiDevice) :=
  match enumOutcome with
  | .ok portNames =>
    let devices := portNames.enum.map fun p =>
      { id := makeDeviceId p.1 p.2, name := p.2, manufacturer := none,
        connected := false : MidiDevice }
    ([], .ok devices)
  | .error msg =>
    let midiError : MidiError :=
      { type := MidiErrorType.UNKNOWN_ERROR,
        message := "Failed to detect MIDI devices", originalError := some msg }
    ([ManagerEvent.error midiError], .error midiError)

/-- One full reconciler poll: run `MidiManager.detectDevices` on the
enumeration outcome, then `detectAndCompareDevices` on its result.  Returns
the manager-level events and the detector-level poll result. -/
def detectorPoll (lastKnownDevices : List MidiDevice)
    (enumOutcome : Except String (List String)) :
    List ManagerEvent × PollResult :=
  let d := detectDevices enumOutcome
  (d.1, detectAndCompareDevices lastKnownDevices (d.2.mapError JsError.midi))

/-- `MidiManager.getConnectedDevice`. -/
def getConnectedDevice (st : ManagerState) : Option MidiDevice :=
  st.connectedDevice

/-- `MidiManager.disconnect`, with the outcome of `input.closePort()` passed
in (`closePortOk = false` means the call threw).  A throw is caught: the
state mutations after the throwing statement never run and a single
`UNKNOWN_ERROR` event is emitted. -/
def disconnect (st : ManagerState) (closePortOk : Bool) :
    ManagerState × List ManagerEvent :=
  if st.input && !closePortOk then
    (st, [ManagerEvent.error
      { type := MidiErrorType.UNKNOWN_ERROR,
        message := "Error during MIDI device disconnection", originalError := some "closePort" }])
  else
    let events :=
      match st.connectedDevice with
      | some d => [ManagerEvent.deviceDisconnected { d with connected := false }]
      | none => []
    ({ input := false, connectedDevice := none, isListening := false }, events)

/-- JavaScript `String.prototype.includes`: `pat` occurs contiguously in `s`. -/
def strIncludes (s pat : String) : Bool :=
  (List.range (s.data.length + 1)).any fun i => pat.data.isPrefixOf (s.data.drop i)

/-- Classification of an `openPort` failure by substring inspection of the
lowercased message (`parseMidiMessage`'s sibling logic in
`MidiManager.connectToDevice`). -/
def classifyOpenPortFailure (deviceName msg : String) : MidiError :=
  let errorMessage := msg.toLower
  if strIncludes errorMessage "permission" || strIncludes errorMessage "access" then
    { type := MidiErrorType.PERMISSION_DENIED,
      message := "Permission denied accessing MIDI device " ++ deviceName,
      originalError := some msg }
  else if strIncludes errorMessage "busy" || strIncludes errorMessage "use" then
    { type := MidiErrorType.DEVICE_BUSY,
      message := "MIDI device " ++ deviceName ++ " is busy or in use by another application.",
      originalError := some msg }
  else
    { type := MidiErrorType.CONNECTION_FAILED,
      message := "Failed to connect to MIDI device " ++ deviceName ++ ": " ++ msg,
      originalError := some msg }

/-- `MidiManager.connectToDevice`, with the outcomes of the external calls
passed in: `closePortOk` for the `closePort` inside the initial `disconnect`,
`detectOutcome` for the awaited `detectDevices()`, and `openPortOutcome` for
`input.openPort(portIndex)` (the failure case carries the thrown message).
The port index extracted from the id feeds only the external `openPort`
call, so it does not appear separately.  Returns the final state, the
manager events in emission order, and the call's own outcome (`Except.error`
means the `MidiError` is re-thrown to the caller). -/
def connectToDevice (st : ManagerState) (deviceId : String) (closePortOk : Bool)
    (detectOutcome : Except MidiError (List MidiDevice))
    (openPortOutcome : Except String Unit) :
    ManagerState × List ManagerEvent × Except MidiError Unit :=
  let step1 :=
    if st.connectedDevice.isSome then disconnect st closePortOk else (st, [])
  let st1 := step1.1
  let evs1 := step1.2
  match detectOutcome with
  | .error e =>
    -- the throw from detectDevices reaches the outer catch: clean up the
    -- input if present, emit the error, re-throw
    let st2 := if st1.input then { st1 with input := false } else st1
    (st2, evs1 ++ [ManagerEvent.error e], .error e)
  | .ok availableDevices =>
    match availableDevices.find? (fun device => device.id == deviceId) with
    | none =>
      let e : MidiError :=
        { type := MidiErrorType.DEVICE_NOT_FOUND,
          message := "MIDI device with ID " ++ deviceId ++ " not found",
          originalError := none }
      let st2 := if st1.input then { st1 with input := false } else st1
      (st2, evs1 ++ [ManagerEvent.error e], .error e)
    | some targetDevice =>
      -- this.input = new midi.Input(); handler registered; openPort attempted
      let st2 := { st1 with input := true }
      match openPortOutcome with
      | .error msg =>
        let e := classifyOpenPortFailure targetDevice.name msg
        -- outer catch: input present, closePort (errors ignored), input = null
        ({ st2 with input := false }, evs1 ++ [ManagerEvent.error e], .error e)
      | .ok _ =>
        let connected := { targetDevice with connected := true }
        ({ input := true, connectedDevice := some connected, isListening := true },
         evs1 ++ [ManagerEvent.deviceConnected connected], .ok ())

/-! Reference-store model for the aliasing behaviour of
`getLastKnownDevices` (`return [...this.lastKnownDevices]`): array objects
and device objects live in a store, the detector holds a reference to its
array, and the spread copy allocates a fresh array object containing the same
device references. -/

/-- A JavaScript object store: array objects (lists of device references,
addressed by position) and device objects. -/
structure Store where
  arrays : List (List ℕ)
  devs : List MidiDevice
deriving DecidableEq

/-- The detector's `lastKnownDevices` field as a reference to an array
object. -/
structure DetectorRef where
  lastKnownArr : ℕ
deriving DecidableEq

/-- The device values a reader of an array reference observes. -/
def viewArray (s : Store) (arr : ℕ) : List (Option MidiDevice) :=
  (s.arrays.getD arr []).map fun r => s.devs.get? r

/-- `getLastKnownDevices` on the store: allocate a fresh array object with the
same device references (the spread copy) and return its reference. -/
def getLastKnownDevicesRef (s : Store) (st : DetectorRef) : Store × ℕ :=
  (⟨s.arrays ++ [s.arrays.getD st.lastKnownArr []], s.devs⟩, s.arrays.length)

/-- A caller mutating the array object `arr` in place: `a[idx] = ref`. -/
def arraySet (s : Store) (arr idx ref : ℕ) : Store :=
  ⟨s.arrays.set arr ((s.arrays.getD arr []).set idx ref), s.devs⟩

/-- A caller mutating a device object in place through a reference:
`d.name = ...` and the like replace the object's contents. -/
def deviceSet (s : Store) (ref : ℕ) (d : MidiDevice) : Store :=
  ⟨s.arrays, s.devs.set ref d⟩

example : parseMidiMessage [0x90, 60, 100] 7 =
    some { type := MidiMessageType.NOTE_ON, channel := 1, note := some 60,
           velocity := some 100, controller := none, value := none,
           timestamp := 7 } := by decide

example : parseMidiMessage [0x94, 72, 0] 7 =
    some { type := MidiMessageType.NOTE_OFF, channel := 5, note := some 72,
           velocity := some 0, controller := none, value := none,
           timestamp := 7 } := by decide

example : parseMidiMessage [0x90, 60] 7 = none := by decide

example : parseMidiMessage [0x90, mkRat 121 2, 100] 7 = none := by decide

example : parseMidiMessage [0xA0, 60, 100] 7 = none := by decide

example : parseMidiMessage [0xC9, 42] 7 =
    some { type := MidiMessageType.PROGRAM_CHANGE, channel := 10, note := none,
           velocity := none, controller := none, value := some 42,
           timestamp := 7 } := by decide

example :
    (compareDeviceLists
      [⟨"a", "A", none, false⟩, ⟨"b", "B", none, false⟩]
      [⟨"b", "B2", none, true⟩, ⟨"c", "C", none, false⟩]).added =
      [⟨"c", "C", none, false⟩] := by decide

example :
    (compareDeviceLists
      [⟨"a", "A", none, false⟩, ⟨"b", "B", none, false⟩]
      [⟨"b", "B2", none, true⟩, ⟨"c", "C", none, false⟩]).removed =
      [⟨"a", "A", none, false⟩] := by decide

lemma not_contains_eq (l : List String) (x : String) :
    (!(l.contains x)) = decide (x ∉ l) := by simp

/-! Supporting lemmas about the channel nibble. -/

lemma jsAnd_fifteen_bounds (q : ℚ) : 0 ≤ jsAnd q 15 ∧ jsAnd q 15 ≤ 15 := by
  have h15 : toUint32 (15 : ℚ) = 15 := by decide
  have hle : Nat.land (toUint32 q) 15 ≤ 15 := Nat.and_le_right
  have hlt : Nat.land (toUint32 q) 15 < 2 ^ 31 := lt_of_le_of_lt hle (by norm_num)
  simp only [jsAnd, h15]
  rw [if_pos hlt]
  exact ⟨Int.natCast_nonneg _, by exact_mod_cast hle⟩

lemma midiChannel_bounds (q : ℚ) : 1 ≤ midiChannel q ∧ midiChannel q ≤ 16 := by
  have h := jsAnd_fifteen_bounds q
  unfold midiChannel
  constructor <;> [linarith [h.1]; linarith [h.2]]

lemma isValidMidiChannel_intCast (k : ℤ) (h1 : 1 ≤ k) (h2 : k ≤ 16) :
    isValidMidiChannel (k : ℚ) = true := by
  simp only [isValidMidiChannel, isInteger, MIN_CHANNEL, MAX_CHANNEL,
    Bool.and_eq_true, beq_iff_eq, decide_eq_true_eq]
  refine ⟨⟨Rat.den_intCast k, ?_⟩, ?_⟩
  · exact_mod_cast h1
  · exact_mod_cast h2

/-- The channel-range rejection branch never fires for a masked nibble. -/
lemma midiChannel_valid (q : ℚ) :
    isValidMidiChannel ((midiChannel q : ℤ) : ℚ) = true :=
  isValidMidiChannel_intCast _ (midiChannel_bounds q).1 (midiChannel_bounds q).2

lemma midiChannel_natCast (n : ℕ) (h : n ≤ 15) : midiChannel (n : ℚ) = (n : ℤ) + 1 := by
  interval_cases n <;> decide

/-- C1: a frame whose top nibble is 0x9 with two in-range data bytes decodes
to NoteOff with velocity 0 when velocity is 0 and the reclassification flag is
enabled, and to NoteOn with channel `(statusByte & 0x0F) + 1` and the matching
note and velocity when velocity is positive. -/
theorem C1_noteOn_decode (s note velocity : ℚ) (t : ℤ)
    (hs : jsAnd s 0xF0 = NOTE_ON_STATUS)
    (hnote : isValidMidiNote note = true)
    (hvel : isValidMidiVelocity velocity = true) :
    (velocity = 0 → NOTE_ON_ZERO_VELOCITY_IS_NOTE_OFF = true →
      parseMidiMessage [s, note, velocity] t =
        some { type := MidiMessageType.NOTE_OFF,
               channel := ((midiChannel s : ℤ) : ℚ), note := some note,
               velocity := some 0, controller := none, value := none,
               timestamp := t }) ∧
    (0 < velocity →
      parseMidiMessage [s, note, velocity] t =
        some { type := MidiMessageType.NOTE_ON,
               channel := ((jsAnd s 0x0F + 1 : ℤ) : ℚ), note := some note,
               velocity := some velocity, controller := none, value := none,
               timestamp := t }) := by
  constructor
  · intro h0 _
    subst h0
    unfold parseMidiMessage
    simp [midiChannel_valid, hs, hnote, hvel, NOTE_ON_ZERO_VELOCITY_IS_NOTE_OFF]
  · intro hpos
    have hne : (velocity == 0) = false := by
      simp only [beq_eq_false_iff_ne, ne_eq]
      intro h
      rw [h] at hpos
      exact lt_irrefl 0 hpos
    unfold parseMidiMessage
    simp [midiChannel_valid, hs, hnote, hvel, hne, midiChannel]
    simpa [midiChannel, Int.cast_add, Int.cast_one] using midiChannel_valid s

/-- Witness for C1 at `[0x94, 72, 0]` (channel nibble 4) and `[0x90, 60, 100]`. -/
theorem C1_noteOn_decode_witness :
    parseMidiMessage [0x94, 72, 0] 7 =
      some { type := MidiMessageType.NOTE_OFF, channel := 5, note := some 72,
             velocity := some 0, controller := none, value := none,
             timestamp := 7 } ∧
    parseMidiMessage [0x90, 60, 100] 7 =
      some { type := MidiMessageType.NOTE_ON, channel := 1, note := some 60,
             velocity := some 100, controller := none, value := none,
             timestamp := 7 } := by
  constructor
  · rw [(C1_noteOn_decode 0x94 72 0 7 (by decide) (by decide) (by decide)).1 rfl rfl]
    decide
  · rw [(C1_noteOn_decode 0x90 60 100 7 (by decide) (by decide) (by decide)).2 (by decide)]
    decide

/-- C2: decode rejects (returns `none`, raising nothing — the embedded
decoder is a total function) every frame with fewer than 2 bytes, every frame
whose top nibble selects no supported family, and every family frame whose
named data field is out of range or a non-integer; the third conjunct records
that the shared range validators fail exactly on such field values. -/
theorem C2_reject_invalid (t : ℤ) :
    (∀ message : List ℚ, message.length < 2 → parseMidiMessage message t = none) ∧
    (∀ s : ℚ, ∀ dataBytes : List ℚ,
      jsAnd s 0xF0 ≠ NOTE_OFF_STATUS → jsAnd s 0xF0 ≠ NOTE_ON_STATUS →
      jsAnd s 0xF0 ≠ CONTROL_CHANGE_STATUS → jsAnd s 0xF0 ≠ PROGRAM_CHANGE_STATUS →
      parseMidiMessage (s :: dataBytes) t = none) ∧
    (∀ q : ℚ, isInteger q = false ∨ q < 0 ∨ 127 < q →
      isValidMidiNote q = false ∧ isValidMidiVelocity q = false ∧
      isValidMidiController q = false) ∧
    (∀ s note velocity : ℚ, ∀ rest : List ℚ,
      jsAnd s 0xF0 = NOTE_ON_STATUS ∨ jsAnd s 0xF0 = NOTE_OFF_STATUS →
      isValidMidiNote note = false ∨ isValidMidiVelocity velocity = false →
      parseMidiMessage (s :: note :: velocity :: rest) t = none) ∧
    (∀ s controller value : ℚ, ∀ rest : List ℚ,
      jsAnd s 0xF0 = CONTROL_CHANGE_STATUS →
      isValidMidiController controller = false ∨ isValidMidiVelocity value = false →
      parseMidiMessage (s :: controller :: value :: rest) t = none) ∧
    (∀ s value : ℚ, ∀ rest : List ℚ,
      jsAnd s 0xF0 = PROGRAM_CHANGE_STATUS →
      isValidMidiVelocity value = false →
      parseMidiMessage (s :: value :: rest) t = none) := by
  refine ⟨?_, ?_, ?_, ?_, ?_, ?_⟩
  · intro message hm
    match message with
    | [] => rfl
    | [_] => rfl
    | _ :: _ :: _ =>
      simp only [List.length_cons] at hm
      omega
  · intro s dataBytes h1 h2 h3 h4
    match dataBytes with
    | [] => rfl
    | d :: rest =>
      unfold parseMidiMessage
      simp [midiChannel_valid, h1, h2, h3, h4]
  · intro q hq
    rcases hq with h | h | h
    · simp [isValidMidiNote, isValidMidiVelocity, isValidMidiController, h]
    · have h0 : decide ((0 : ℚ) ≤ q) = false := decide_eq_false (not_le.mpr h)
      simp [isValidMidiNote, isValidMidiVelocity, isValidMidiController,
        MIN_NOTE, MIN_VELOCITY, MIN_CONTROLLER, h0]
    · have h0 : decide (q ≤ (127 : ℚ)) = false := decide_eq_false (not_le.mpr h)
      simp [isValidMidiNote, isValidMidiVelocity, isValidMidiController,
        MAX_NOTE, MAX_VELOCITY, MAX_CONTROLLER, h0]
  · intro s note velocity rest hs hbad
    unfold parseMidiMessage
    rcases hs with hs | hs <;> rcases hbad with h | h <;>
      simp [midiChannel_valid, hs, h, NOTE_ON_STATUS, NOTE_OFF_STATUS,
        CONTROL_CHANGE_STATUS, PROGRAM_CHANGE_STATUS]
  · intro s controller value rest hs hbad
    unfold parseMidiMessage
    rcases hbad with h | h <;> simp [midiChannel_valid, hs, h, NOTE_ON_STATUS,
      NOTE_OFF_STATUS, CONTROL_CHANGE_STATUS, PROGRAM_CHANGE_STATUS]
  · intro s value rest hs h
    unfold parseMidiMessage
    simp [midiChannel_valid, hs, h, NOTE_ON_STATUS, NOTE_OFF_STATUS,
      CONTROL_CHANGE_STATUS, PROGRAM_CHANGE_STATUS]

/-- Witness for C2: a 0-byte frame, an unsupported top nibble (0xA0), the
validators on the non-integer 60.5, an out-of-range note, an out-of-range
controller, and an out-of-range program value. -/
theorem C2_reject_invalid_witness :
    parseMidiMessage [] 7 = none ∧
    parseMidiMessage [0xA0, 60, 100] 7 = none ∧
    (isValidMidiNote (mkRat 121 2) = false ∧
     isValidMidiVelocity (mkRat 121 2) = false ∧
     isValidMidiController (mkRat 121 2) = false) ∧
    parseMidiMessage [0x90, 128, 100] 7 = none ∧
    parseMidiMessage [0xB0, 200, 64] 7 = none ∧
    parseMidiMessage [0xC0, -1] 7 = none := by
  refine ⟨(C2_reject_invalid 7).1 [] (by decide),
    (C2_reject_invalid 7).2.1 0xA0 [60, 100] (by decide) (by decide) (by decide) (by decide),
    (C2_reject_invalid 7).2.2.1 (mkRat 121 2) (by decide),
    (C2_reject_invalid 7).2.2.2.1 0x90 128 100 [] (by decide) (by decide),
    (C2_reject_invalid 7).2.2.2.2.1 0xB0 200 64 [] (by decide) (by decide),
    (C2_reject_invalid 7).2.2.2.2.2 0xC0 (-1) [] (by decide) (by decide)⟩

/-- C6: the nibble-to-channel map `(statusByte & 0x0F) + 1` is a bijection
from the 16 nibble values 0-15 onto channels 1-16; a 0x90 frame decodes to
channel 1 and a 0x9F frame to channel 16; and the channel-range rejection
branch is unreachable: the masked channel always passes `isValidMidiChannel`. -/
theorem C6_channel_mapping :
    Set.BijOn (fun n : ℕ => midiChannel (n : ℚ)) (Set.Icc 0 15) (Set.Icc 1 16) ∧
    (∀ t : ℤ,
      parseMidiMessage [0x90, 60, 100] t =
        some { type := MidiMessageType.NOTE_ON, channel := 1, note := some 60,
               velocity := some 100, controller := none, value := none,
               timestamp := t } ∧
      parseMidiMessage [0x9F, 60, 100] t =
        some { type := MidiMessageType.NOTE_ON, channel := 16, note := some 60,
               velocity := some 100, controller := none, value := none,
               timestamp := t }) ∧
    (∀ q : ℚ, isValidMidiChannel ((midiChannel q : ℤ) : ℚ) = true) := by
  refine ⟨⟨?_, ?_, ?_⟩, ?_, midiChannel_valid⟩
  · intro n hn
    rw [Set.mem_Icc] at hn
    show midiChannel (n : ℚ) ∈ Set.Icc (1 : ℤ) 16
    rw [Set.mem_Icc, midiChannel_natCast n hn.2]
    omega
  · intro a ha b hb h
    rw [Set.mem_Icc] at ha hb
    change midiChannel (a : ℚ) = midiChannel (b : ℚ) at h
    rw [midiChannel_natCast a ha.2, midiChannel_natCast b hb.2] at h
    omega
  · intro k hk
    rw [Set.mem_Icc] at hk
    refine ⟨(k - 1).toNat, ?_, ?_⟩
    · rw [Set.mem_Icc]
      omega
    · show midiChannel (((k - 1).toNat : ℕ) : ℚ) = k
      rw [midiChannel_natCast _ (by omega)]
      omega
  · intro t
    constructor <;> rfl

/-- C3: the device diff keys on `id` alone: `added` is exactly the sublist of
the new list whose ids are absent from the old list's ids, `removed` the
sublist of the old list whose ids are absent from the new list's ids, and a
device whose id occurs in both lists (regardless of name or connected flag)
lands in neither. -/
theorem C3_diff_by_id (oldDevices newDevices : List MidiDevice) :
    (compareDeviceLists oldDevices newDevices).added =
      newDevices.filter (fun d => decide (d.id ∉ oldDevices.map MidiDevice.id)) ∧
    (compareDeviceLists oldDevices newDevices).removed =
      oldDevices.filter (fun d => decide (d.id ∉ newDevices.map MidiDevice.id)) ∧
    (∀ d d' : MidiDevice, d ∈ oldDevices → d' ∈ newDevices → d'.id = d.id →
      d' ∉ (compareDeviceLists oldDevices newDevices).added ∧
      d ∉ (compareDeviceLists oldDevices newDevices).removed) := by
  have hA : (compareDeviceLists oldDevices newDevices).added =
      newDevices.filter (fun d => decide (d.id ∉ oldDevices.map MidiDevice.id)) :=
    List.filter_congr fun a _ => by rw [not_contains_eq]
  have hB : (compareDeviceLists oldDevices newDevices).removed =
      oldDevices.filter (fun d => decide (d.id ∉ newDevices.map MidiDevice.id)) :=
    List.filter_congr fun a _ => by rw [not_contains_eq]
  refine ⟨hA, hB, ?_⟩
  intro d d' hd hd' hid
  constructor
  · rw [hA]
    intro hmem
    rw [List.mem_filter, decide_eq_true_eq] at hmem
    exact hmem.2 (hid ▸ List.mem_map_of_mem MidiDevice.id hd)
  · rw [hB]
    intro hmem
    rw [List.mem_filter, decide_eq_true_eq] at hmem
    exact hmem.2 (hid ▸ List.mem_map_of_mem MidiDevice.id hd')

/-- Witness for C3 on the spec's example: old `[a, b]`, new `[b, c]` with
`b`'s name changed; `b` appears in neither `added` nor `removed`. -/
theorem C3_diff_by_id_witness :
    (compareDeviceLists
        [⟨"a", "A", none, false⟩, ⟨"b", "B", none, false⟩]
        [⟨"b", "B2", none, true⟩, ⟨"c", "C", none, false⟩]).added =
      [⟨"c", "C", none, false⟩] ∧
    (compareDeviceLists
        [⟨"a", "A", none, false⟩, ⟨"b", "B", none, false⟩]
        [⟨"b", "B2", none, true⟩, ⟨"c", "C", none, false⟩]).removed =
      [⟨"a", "A", none, false⟩] ∧
    (⟨"b", "B2", none, true⟩ : MidiDevice) ∉
      (compareDeviceLists
        [⟨"a", "A", none, false⟩, ⟨"b", "B", none, false⟩]
        [⟨"b", "B2", none, true⟩, ⟨"c", "C", none, false⟩]).added := by
  refine ⟨?_, ?_, ?_⟩
  · rw [(C3_diff_by_id [⟨"a", "A", none, false⟩, ⟨"b", "B", none, false⟩]
      [⟨"b", "B2", none, true⟩, ⟨"c", "C", none, false⟩]).1]
    decide
  · rw [(C3_diff_by_id [⟨"a", "A", none, false⟩, ⟨"b", "B", none, false⟩]
      [⟨"b", "B2", none, true⟩, ⟨"c", "C", none, false⟩]).2.1]
    decide
  · exact ((C3_diff_by_id [⟨"a", "A", none, false⟩, ⟨"b", "B", none, false⟩]
      [⟨"b", "B2", none, true⟩, ⟨"c", "C", none, false⟩]).2.2
      ⟨"b", "B", none, false⟩ ⟨"b", "B2", none, true⟩
      (by decide) (by decide) rfl).1

/-- C4: a successful poll emits nothing when the diff is empty, and otherwise
exactly one `devicesChanged` carrying the full new list, then one
`deviceAdded` per added device in the new list's order, then one
`deviceRemoved` per removed device in the old list's order; in both cases the
stored last-known list is replaced by the new list, which is also returned. -/
theorem C4_poll_emission (oldDevices newDevices : List MidiDevice) :
    (detectAndCompareDevices oldDevices (Except.ok newDevices)).events =
      (if (compareDeviceLists oldDevices newDevices).added = [] ∧
          (compareDeviceLists oldDevices newDevices).removed = [] then []
       else
         DetectorEvent.devicesChanged newDevices ::
           ((compareDeviceLists oldDevices newDevices).added.map
              DetectorEvent.deviceAdded ++
            (compareDeviceLists oldDevices newDevices).removed.map
              DetectorEvent.deviceRemoved)) ∧
    (detectAndCompareDevices oldDevices (Except.ok newDevices)).lastKnownAfter =
      newDevices ∧
    (detectAndCompareDevices oldDevices (Except.ok newDevices)).returned =
      newDevices := by
  refine ⟨?_, rfl, rfl⟩
  unfold detectAndCompareDevices
  rcases h1 : (compareDeviceLists oldDevices newDevices).added with _ | ⟨a, as⟩ <;>
    rcases h2 : (compareDeviceLists oldDevices newDevices).removed with _ | ⟨r, rs⟩ <;>
    simp [h1, h2]

/-- C5: a poll whose underlying enumeration fails is total (no exception
reaches the caller), leaves the stored last-known list unchanged (and thus
`getLastKnownDevices` unchanged), returns the previous list, and the detector
emits exactly one `error` event and no device events (the manager separately
emits its own `error` event inside `detectDevices`). -/
theorem C5_enum_failure (lastKnown : List MidiDevice) (msg : String) :
    detectorPoll lastKnown (Except.error msg) =
      ([ManagerEvent.error
          { type := MidiErrorType.UNKNOWN_ERROR,
            message := "Failed to detect MIDI devices",
            originalError := some msg }],
       { events := [DetectorEvent.error
            { type := MidiErrorType.UNKNOWN_ERROR,
              message := "Failed to detect MIDI devices",
              originalError := some msg }],
         lastKnownAfter := lastKnown, returned := lastKnown }) ∧
    getLastKnownDevices
      { lastKnownDevices := (detectorPoll lastKnown (Except.error msg)).2.lastKnownAfter,
        isMonitoring := false, monitoringInterval := none } =
    getLastKnownDevices
      { lastKnownDevices := lastKnown, isMonitoring := false,
        monitoringInterval := none } := by
  constructor <;> rfl

/-- C7 counterexample: the decoder does not require *exactly* 2 (resp. 1)
data bytes — a NoteOn frame with 3 data bytes and a ProgramChange frame with
2 data bytes are both accepted, the extra trailing byte ignored. -/
theorem C7_counterexample :
    parseMidiMessage [0x90, 60, 100, 7] 0 =
      some { type := MidiMessageType.NOTE_ON, channel := 1, note := some 60,
             velocity := some 100, controller := none, value := none,
             timestamp := 0 } ∧
    parseMidiMessage [0xC0, 5, 9] 0 =
      some { type := MidiMessageType.PROGRAM_CHANGE, channel := 1, note := none,
             velocity := none, controller := none, value := some 5,
             timestamp := 0 } := by decide

/-- C7 amended: a NoteOn-, NoteOff- or ControlChange-family frame is accepted
only with *at least* 2 data bytes and a ProgramChange-family frame only with
*at least* 1; frames of these families with fewer data bytes are rejected,
and extra trailing data bytes beyond the required prefix do not affect the
result. -/
theorem C7_data_byte_arity (t : ℤ) :
    (∀ s : ℚ, parseMidiMessage [s] t = none) ∧
    (∀ s d1 : ℚ,
      jsAnd s 0xF0 = NOTE_ON_STATUS ∨ jsAnd s 0xF0 = NOTE_OFF_STATUS ∨
        jsAnd s 0xF0 = CONTROL_CHANGE_STATUS →
      parseMidiMessage [s, d1] t = none) ∧
    (∀ s d1 d2 : ℚ, ∀ rest : List ℚ,
      jsAnd s 0xF0 = NOTE_ON_STATUS ∨ jsAnd s 0xF0 = NOTE_OFF_STATUS ∨
        jsAnd s 0xF0 = CONTROL_CHANGE_STATUS →
      parseMidiMessage (s :: d1 :: d2 :: rest) t = parseMidiMessage [s, d1, d2] t) ∧
    (∀ s d1 : ℚ, ∀ rest : List ℚ,
      jsAnd s 0xF0 = PROGRAM_CHANGE_STATUS →
      parseMidiMessage (s :: d1 :: rest) t = parseMidiMessage [s, d1] t) := by
  refine ⟨fun s => rfl, ?_, ?_, ?_⟩
  · intro s d1 hs
    unfold parseMidiMessage
    rcases hs with hs | hs | hs <;>
      simp [midiChannel_valid, hs, NOTE_ON_STATUS, NOTE_OFF_STATUS,
        CONTROL_CHANGE_STATUS, PROGRAM_CHANGE_STATUS]
  · intro s d1 d2 rest hs
    unfold parseMidiMessage
    rcases hs with hs | hs | hs <;>
      simp [midiChannel_valid, hs, NOTE_ON_STATUS, NOTE_OFF_STATUS,
        CONTROL_CHANGE_STATUS, PROGRAM_CHANGE_STATUS]
  · intro s d1 rest hs
    unfold parseMidiMessage
    simp [midiChannel_valid, hs, NOTE_ON_STATUS, NOTE_OFF_STATUS,
      CONTROL_CHANGE_STATUS, PROGRAM_CHANGE_STATUS]

/-- Witness for C7's amended statement: too-short frames of each family are
rejected, and a trailing extra byte leaves the decode unchanged. -/
theorem C7_data_byte_arity_witness :
    parseMidiMessage [0x90] 7 = none ∧
    parseMidiMessage [0x90, 60] 7 = none ∧
    parseMidiMessage [0xB0, 7] 7 = none ∧
    parseMidiMessage [0x90, 60, 100, 7] 7 = parseMidiMessage [0x90, 60, 100] 7 ∧
    parseMidiMessage [0xC0, 5, 9] 7 = parseMidiMessage [0xC0, 5] 7 := by
  refine ⟨(C7_data_byte_arity 7).1 0x90,
    (C7_data_byte_arity 7).2.1 0x90 60 (Or.inl (by decide)),
    (C7_data_byte_arity 7).2.1 0xB0 7 (Or.inr (Or.inr (by decide))),
    (C7_data_byte_arity 7).2.2.1 0x90 60 100 [7] (Or.inl (by decide)),
    (C7_data_byte_arity 7).2.2.2 0xC0 5 [9] (by decide)⟩

/-- C8: `startMonitoring` is idempotent — a second call while active is a
no-op, so two successive calls run exactly one immediate detection pass and
create exactly one timer — and `stopMonitoring` is idempotent and leaves the
last-known device list unchanged and queryable. -/
theorem C8_monitoring_idempotent (st : DetectorState) (t1 t2 : ℕ)
    (r1 r2 : Except JsError (List MidiDevice))
    (h : st.isMonitoring = false) :
    ((startMonitoring (startMonitoring st t1 r1).state t2 r2).state =
        (startMonitoring st t1 r1).state ∧
      (startMonitoring (startMonitoring st t1 r1).state t2 r2).events = [] ∧
      (startMonitoring st t1 r1).detectionPasses +
        (startMonitoring (startMonitoring st t1 r1).state t2 r2).detectionPasses = 1 ∧
      (startMonitoring st t1 r1).timersCreated +
        (startMonitoring (startMonitoring st t1 r1).state t2 r2).timersCreated = 1) ∧
    (∀ st' : DetectorState,
      (stopMonitoring (stopMonitoring st').state).state = (stopMonitoring st').state ∧
      getLastKnownDevices (stopMonitoring st').state = getLastKnownDevices st') := by
  constructor
  · refine ⟨?_, ?_, ?_, ?_⟩ <;> simp [startMonitoring, h]
  · intro st'
    rcases hb : st'.isMonitoring <;> rcases hi : st'.monitoringInterval <;>
      simp [stopMonitoring, getLastKnownDevices, hb, hi]

/-- Witness for C8 from the fresh state (empty list, not monitoring). -/
theorem C8_monitoring_idempotent_witness :
    ((startMonitoring (startMonitoring ⟨[], false, none⟩ 1 (Except.ok [])).state 2
        (Except.ok [])).state =
      (startMonitoring ⟨[], false, none⟩ 1 (Except.ok [])).state ∧
     (startMonitoring (startMonitoring ⟨[], false, none⟩ 1 (Except.ok [])).state 2
        (Except.ok [])).events = [] ∧
     (startMonitoring ⟨[], false, none⟩ 1 (Except.ok [])).detectionPasses +
       (startMonitoring (startMonitoring ⟨[], false, none⟩ 1 (Except.ok [])).state 2
         (Except.ok [])).detectionPasses = 1 ∧
     (startMonitoring ⟨[], false, none⟩ 1 (Except.ok [])).timersCreated +
       (startMonitoring (startMonitoring ⟨[], false, none⟩ 1 (Except.ok [])).state 2
         (Except.ok [])).timersCreated = 1) ∧
    ((stopMonitoring (stopMonitoring ⟨[⟨"a", "A", none, false⟩], true, some 1⟩).state).state =
      (stopMonitoring ⟨[⟨"a", "A", none, false⟩], true, some 1⟩).state ∧
     getLastKnownDevices (stopMonitoring ⟨[⟨"a", "A", none, false⟩], true, some 1⟩).state =
      getLastKnownDevices ⟨[⟨"a", "A", none, false⟩], true, some 1⟩) := by
  have h := C8_monitoring_idempotent ⟨[], false, none⟩ 1 2 (Except.ok []) (Except.ok []) rfl
  exact ⟨h.1, h.2 ⟨[⟨"a", "A", none, false⟩], true, some 1⟩⟩

/-! List lemmas for the reference-store model. -/

lemma getD_append_length {α : Type} (l : List α) (x d : α) :
    (l ++ [x]).getD l.length d = x := by
  induction l with
  | nil => rfl
  | cons a as ih => simp only [List.cons_append, List.length_cons]; exact ih

lemma getD_append_lt {α : Type} (l : List α) (x d : α) (i : ℕ) (h : i < l.length) :
    (l ++ [x]).getD i d = l.getD i d := by
  induction l generalizing i with
  | nil => simp at h
  | cons a as ih =>
    cases i with
    | zero => rfl
    | succ n => simpa using ih n (by simpa using h)

lemma getD_set_ne {α : Type} (l : List α) (i j : ℕ) (x d : α) (h : i ≠ j) :
    (l.set i x).getD j d = l.getD j d := by
  induction l generalizing i j with
  | nil => rfl
  | cons a as ih =>
    cases i with
    | zero =>
      cases j with
      | zero => exact absurd rfl h
      | succ m => rfl
    | succ n =>
      cases j with
      | zero => rfl
      | succ m => simpa using ih n m (by omega)

/-- C9 counterexample: `getLastKnownDevices` is only a *shallow* copy — the
device objects are shared, so a caller writing a field through a device
reference taken from the returned array changes what a subsequent read of the
internal list observes. -/
theorem C9_counterexample :
    (let s : Store := ⟨[[0]], [⟨"0-pad", "pad", none, false⟩]⟩
     let g := getLastKnownDevicesRef s ⟨0⟩
     let sharedRef := (g.1.arrays.getD g.2 []).getD 0 0
     viewArray (deviceSet g.1 sharedRef ⟨"0-pad", "PAD", none, false⟩) 0 ≠
       viewArray g.1 0) := by decide

/-- C9 amended: `getLastKnownDevices` returns a *fresh array object* (a
shallow copy): the returned reference is distinct from the internal one, it
observes the same devices, and in-place mutation of the returned array object
never changes what the internal array observes; only the shared device
objects are mutable through the copy (the counterexample). -/
theorem C9_shallow_copy (s : Store) (st : DetectorRef)
    (h : st.lastKnownArr < s.arrays.length) :
    (getLastKnownDevicesRef s st).2 ≠ st.lastKnownArr ∧
    viewArray (getLastKnownDevicesRef s st).1 (getLastKnownDevicesRef s st).2 =
      viewArray s st.lastKnownArr ∧
    viewArray (getLastKnownDevicesRef s st).1 st.lastKnownArr =
      viewArray s st.lastKnownArr ∧
    (∀ idx ref : ℕ,
      viewArray (arraySet (getLastKnownDevicesRef s st).1
          (getLastKnownDevicesRef s st).2 idx ref) st.lastKnownArr =
        viewArray (getLastKnownDevicesRef s st).1 st.lastKnownArr) := by
  refine ⟨by simp [getLastKnownDevicesRef]; omega, ?_, ?_, ?_⟩
  · simp only [getLastKnownDevicesRef, viewArray]
    rw [getD_append_length]
  · simp only [getLastKnownDevicesRef, viewArray]
    rw [getD_append_lt _ _ _ _ h]
  · intro idx ref
    simp only [getLastKnownDevicesRef, arraySet, viewArray]
    rw [getD_set_ne _ _ _ _ _ (by omega)]

/-- Witness for C9's amended statement on a one-device store. -/
theorem C9_shallow_copy_witness :
    (getLastKnownDevicesRef ⟨[[0]], [⟨"0-pad", "pad", none, false⟩]⟩ ⟨0⟩).2 ≠ 0 ∧
    viewArray (getLastKnownDevicesRef ⟨[[0]], [⟨"0-pad", "pad", none, false⟩]⟩ ⟨0⟩).1
        (getLastKnownDevicesRef ⟨[[0]], [⟨"0-pad", "pad", none, false⟩]⟩ ⟨0⟩).2 =
      viewArray ⟨[[0]], [⟨"0-pad", "pad", none, false⟩]⟩ 0 ∧
    viewArray (arraySet
        (getLastKnownDevicesRef ⟨[[0]], [⟨"0-pad", "pad", none, false⟩]⟩ ⟨0⟩).1
        (getLastKnownDevicesRef ⟨[[0]], [⟨"0-pad", "pad", none, false⟩]⟩ ⟨0⟩).2 0 5) 0 =
      viewArray (getLastKnownDevicesRef ⟨[[0]], [⟨"0-pad", "pad", none, false⟩]⟩ ⟨0⟩).1 0 := by
  have h := C9_shallow_copy ⟨[[0]], [⟨"0-pad", "pad", none, false⟩]⟩ ⟨0⟩ (by decide)
  exact ⟨h.1, h.2.1, h.2.2.2 0 5⟩

/-- C10: when `connectToDevice` runs while a device is connected and the new
attempt fails — the id is absent from the fresh enumeration, or `openPort`
throws — the old device is disconnected first and never restored: afterwards
`getConnectedDevice` is `none`, the input handle is cleared, the manager
emitted exactly a `deviceDisconnected` for the old device followed by an
`error` carrying the `MidiError`, and the same `MidiError` is re-thrown. -/
theorem C10_failed_reconnect (st : ManagerState) (oldDev : MidiDevice)
    (deviceId : String) (devices : List MidiDevice)
    (hconn : st.connectedDevice = some oldDev) :
    (∀ op : Except String Unit,
      devices.find? (fun device => device.id == deviceId) = none →
      ∃ e : MidiError,
        getConnectedDevice (connectToDevice st deviceId true (Except.ok devices) op).1 =
          none ∧
        (connectToDevice st deviceId true (Except.ok devices) op).1.input = false ∧
        (connectToDevice st deviceId true (Except.ok devices) op).2.1 =
          [ManagerEvent.deviceDisconnected { oldDev with connected := false },
           ManagerEvent.error e] ∧
        (connectToDevice st deviceId true (Except.ok devices) op).2.2 =
          Except.error e) ∧
    (∀ target : MidiDevice, ∀ msg : String,
      devices.find? (fun device => device.id == deviceId) = some target →
      ∃ e : MidiError,
        getConnectedDevice
          (connectToDevice st deviceId true (Except.ok devices) (Except.error msg)).1 =
          none ∧
        (connectToDevice st deviceId true (Except.ok devices) (Except.error msg)).1.input =
          false ∧
        (connectToDevice st deviceId true (Except.ok devices) (Except.error msg)).2.1 =
          [ManagerEvent.deviceDisconnected { oldDev with connected := false },
           ManagerEvent.error e] ∧
        (connectToDevice st deviceId true (Except.ok devices) (Except.error msg)).2.2 =
          Except.error e) := by
  constructor
  · intro op hfind
    refine ⟨{ type := MidiErrorType.DEVICE_NOT_FOUND,
              message := "MIDI device with ID " ++ deviceId ++ " not found",
              originalError := none }, ?_, ?_, ?_, ?_⟩ <;>
      simp [connectToDevice, disconnect, getConnectedDevice, hconn, hfind]
  · intro target msg hfind
    refine ⟨classifyOpenPortFailure target.name msg, ?_, ?_, ?_, ?_⟩ <;>
      simp [connectToDevice, disconnect, getConnectedDevice, hconn, hfind]

/-- Witness for C10: reconnecting away from a connected device fails once on
an unknown id against an empty enumeration, once on an `openPort` throw. -/
theorem C10_failed_reconnect_witness :
    (∃ e : MidiError,
      getConnectedDevice (connectToDevice ⟨true, some ⟨"1-b", "b", none, true⟩, true⟩
          "0-a" true (Except.ok []) (Except.ok ())).1 = none ∧
      (connectToDevice ⟨true, some ⟨"1-b", "b", none, true⟩, true⟩
          "0-a" true (Except.ok []) (Except.ok ())).1.input = false ∧
      (connectToDevice ⟨true, some ⟨"1-b", "b", none, true⟩, true⟩
          "0-a" true (Except.ok []) (Except.ok ())).2.1 =
        [ManagerEvent.deviceDisconnected ⟨"1-b", "b", none, false⟩,
         ManagerEvent.error e] ∧
      (connectToDevice ⟨true, some ⟨"1-b", "b", none, true⟩, true⟩
          "0-a" true (Except.ok []) (Except.ok ())).2.2 = Except.error e) ∧
    (∃ e : MidiError,
      getConnectedDevice (connectToDevice ⟨true, some ⟨"1-b", "b", none, true⟩, true⟩
          "0-a" true (Except.ok [⟨"0-a", "a", none, false⟩]) (Except.error "busy")).1 =
        none ∧
      (connectToDevice ⟨true, some ⟨"1-b", "b", none, true⟩, true⟩
          "0-a" true (Except.ok [⟨"0-a", "a", none, false⟩]) (Except.error "busy")).1.input =
        false ∧
      (connectToDevice ⟨true, some ⟨"1-b", "b", none, true⟩, true⟩
          "0-a" true (Except.ok [⟨"0-a", "a", none, false⟩]) (Except.error "busy")).2.1 =
        [ManagerEvent.deviceDisconnected ⟨"1-b", "b", none, false⟩,
         ManagerEvent.error e] ∧
      (connectToDevice ⟨true, some ⟨"1-b", "b", none, true⟩, true⟩
          "0-a" true (Except.ok [⟨"0-a", "a", none, false⟩]) (Except.error "busy")).2.2 =
        Except.error e) := by
  have h := C10_failed_reconnect ⟨true, some ⟨"1-b", "b", none, true⟩, true⟩
    ⟨"1-b", "b", none, true⟩ "0-a"
  exact ⟨(h [] rfl).1 (Except.ok ()) rfl,
    (h [⟨"0-a", "a", none, false⟩] rfl).2 ⟨"0-a", "a", none, false⟩ "busy" (by decide)⟩
